import Mathlib

/-!
Shallow embedding of the AI-agent chat repository:
the token-issuing HTTP handler (frontend/pages/api/get-token.js) and the
client-side session controller (frontend/components/ChatRoom.js, the variant
decomposed into presentation sub-components, which the repository treats as
canonical).  JavaScript truthiness of optional strings is modelled by `falsy`;
`Date.now()` readings are explicit natural-number parameters; the external
jsonwebtoken signer is modelled as a record pairing the claims payload with
the signing secret; the external TextDecoder is modelled as delivering the
decoded text of a data payload.
-/

/-- JavaScript falsiness of an optional string value: `undefined` and the
empty string are falsy, every other string is truthy.  Models `!x` checks
in get-token.js. -/
def falsy : Option String → Bool
  | none => true
  | some s => s.isEmpty

/-- The "Missing"/"Present" marker computed for each configuration value in
the 500 response of get-token.js. -/
def presence (v : Option String) : String :=
  if falsy v then "Missing" else "Present"

/-- The `video` grant object embedded in the token payload
(get-token.js lines 39-45). -/
structure TokenGrant where
  room : String
  roomJoin : Bool
  canPublish : Bool
  canSubscribe : Bool
  canPublishData : Bool
deriving DecidableEq

/-- The JWT claims payload built by get-token.js (lines 34-46). -/
structure TokenPayload where
  iss : String
  sub : String
  nbf : Nat
  exp : Nat
  video : TokenGrant
deriving DecidableEq

/-- Model of the external jsonwebtoken signer output: a signed token is the
claims payload together with the symmetric secret it was signed with
(HS256).  The claims of the issued token are exactly the payload. -/
structure SignedToken where
  payload : TokenPayload
  secret : String
deriving DecidableEq

/-- The `details` object of the missing-configuration 500 response
(get-token.js lines 22-26); by construction its keys are exactly
`apiKey`, `apiSecret`, `wsUrl`. -/
structure ConfigDetails where
  apiKey : String
  apiSecret : String
  wsUrl : String
deriving DecidableEq

/-- The possible HTTP responses of the get-token.js handler. -/
inductive ApiResponse where
  | failure (status : Nat) (error : String)
  | configFailure (status : Nat) (error : String) (details : ConfigDetails)
  | signFailure (status : Nat) (error : String) (details : String)
  | success (token : SignedToken) (wsUrl : String) (roomName : String)
deriving DecidableEq

/-- HTTP status code of a response (`res.json` without `.status` is 200). -/
def ApiResponse.status : ApiResponse → Nat
  | .failure s _ => s
  | .configFailure s _ _ => s
  | .signFailure s _ _ => s
  | .success _ _ _ => 200

/-- Embedding of the get-token.js request handler.  `method` is the HTTP
method, `username` the request-body field (`none` when absent), the three
configuration values are the environment variables (`none` when unset),
`now` is `Math.floor(Date.now() / 1000)`, and `signError` models the
external `jwt.sign` call: `none` when signing succeeds, `some msg` when it
throws with message `msg`. -/
def handler (method : String) (username : Option String)
    (apiKey apiSecret wsUrl : Option String) (now : Nat)
    (signError : Option String) : ApiResponse :=
  if method ≠ "POST" then .failure 405 "Method not allowed"
  else if falsy username then .failure 400 "Username is required"
  else if falsy apiKey || falsy apiSecret || falsy wsUrl then
    .configFailure 500 "Missing LiveKit configuration"
      { apiKey := presence apiKey, apiSecret := presence apiSecret,
        wsUrl := presence wsUrl }
  else
    let payload : TokenPayload :=
      { iss := apiKey.getD "", sub := username.getD "", nbf := now,
        exp := now + 6 * 60 * 60,
        video := { room := "ai-chat-room", roomJoin := true,
                   canPublish := true, canSubscribe := true,
                   canPublishData := true } }
    match signError with
    | some msg => .signFailure 500 "Failed to generate token" msg
    | none => .success { payload := payload, secret := apiSecret.getD "" }
        (wsUrl.getD "") "ai-chat-room"

/-- A chat message as built by ChatRoom.js: the role flags are the object
fields `isSystem`, `isBot`, `isUser`, each absent (hence falsy) unless set. -/
structure Message where
  id : Nat
  sender : String
  message : String
  timestampMs : Nat
  isSystem : Bool := false
  isBot : Bool := false
  isUser : Bool := false
deriving DecidableEq

/-- View of a room-service room object as read by ChatRoom.js:
`participants` is the remote participants collection mapped to identities
(`none` when the field is undefined), `localParticipant` is the local
participant's identity (`none` when absent). -/
structure Room where
  participants : Option (List String)
  localParticipant : Option String
deriving DecidableEq

/-- The state owned by the ChatRoom component. -/
structure ChatState where
  room : Option Room
  messages : List Message
  inputMessage : String
  username : String
  isConnected : Bool
  isConnecting : Bool
  error : String
  participants : List String
deriving DecidableEq

/-- The spec's connection states, derived from the two boolean flags. -/
inductive ConnState where
  | Idle
  | Connecting
  | Connected
deriving DecidableEq

/-- The spec's `connectionState` view of the boolean flags: `Connected` when
`isConnected`, else `Connecting` when `isConnecting`, else `Idle`. -/
def connectionState (s : ChatState) : ConnState :=
  if s.isConnected then .Connected
  else if s.isConnecting then .Connecting
  else .Idle

/-- The spec's message roles. -/
inductive Role where
  | user
  | agent
  | system
  | other
deriving DecidableEq

/-- The spec's role of a message, read off the code's boolean flags. -/
def roleOf (m : Message) : Role :=
  if m.isSystem then .system
  else if m.isBot then .agent
  else if m.isUser then .user
  else .other

/-- The initial ChatRoom state (all useState initialisers). -/
def chatInit : ChatState :=
  { room := none, messages := [], inputMessage := "", username := "",
    isConnected := false, isConnecting := false, error := "",
    participants := [] }

/-- Model of the external JavaScript String.prototype.trim builtin: drop
leading and trailing whitespace characters.  (JS trims a slightly larger
Unicode whitespace set; the two agree on every string appearing here.) -/
def jsTrim (s : String) : String :=
  String.mk
    (((s.data.dropWhile Char.isWhitespace).reverse.dropWhile
      Char.isWhitespace).reverse)

/-- Outcome of the `/api/get-token` fetch as seen by connectToRoom. -/
inductive TokenFetchResult where
  | httpError (status : Nat) (body : String)
  | ok (token : String) (wsUrl : String) (roomName : String)

/-- Embedding of connectToRoom (ChatRoom.js lines 496-609).  `fetchRes` is
the token-fetch outcome, `connectError` models `room.connect` (`some msg`
when it throws), `newRoom` is the room object created on the success path. -/
def connectToRoom (fetchRes : TokenFetchResult) (connectError : Option String)
    (newRoom : Room) (s : ChatState) : ChatState :=
  if (jsTrim s.username).isEmpty then
    { s with error := "Please enter a username" }
  else
    let s1 := { s with isConnecting := true, error := "" }
    match fetchRes with
    | .httpError status body =>
        { s1 with
          error := "Connection failed: Token request failed: "
            ++ toString status ++ " " ++ body,
          isConnecting := false }
    | .ok _ _ _ =>
        match connectError with
        | some msg =>
            { s1 with error := "Connection failed: " ++ msg,
                      isConnecting := false }
        | none => { s1 with room := some newRoom }

/-- The username string the controller puts in the token request body
(ChatRoom.js line 511): the trimmed username. -/
def tokenRequestUsername (s : ChatState) : String :=
  jsTrim s.username

/-- Embedding of updateParticipantsList (ChatRoom.js lines 611-628):
remote identities (empty when the collection is undefined) with the local
identity pushed unconditionally when present. -/
def updateParticipantsList (room : Option Room) (s : ChatState) : ChatState :=
  match room with
  | none => s
  | some r =>
      let remoteParticipants := r.participants.getD []
      let allParticipants := remoteParticipants ++
        (match r.localParticipant with
         | some i => [i]
         | none => [])
      { s with participants := allParticipants }

/-- The system message appended by the Connected handler. -/
def connectedSysMessage (nowMs : Nat) : Message :=
  { id := nowMs, sender := "System", message := "Connected to chat room!",
    timestampMs := nowMs, isSystem := true }

/-- Embedding of the RoomEvent.Connected handler (ChatRoom.js lines
529-544): set flags, clear error, seed participants from the room, append
the system message. -/
def onConnected (r : Room) (nowMs : Nat) (s : ChatState) : ChatState :=
  let s1 := { s with isConnected := true, isConnecting := false, error := "" }
  let s2 := updateParticipantsList (some r) s1
  { s2 with messages := s2.messages ++ [connectedSysMessage nowMs] }

/-- The system message appended by the Disconnected handler. -/
def disconnectedSysMessage (nowMs : Nat) : Message :=
  { id := nowMs, sender := "System", message := "Disconnected from chat room",
    timestampMs := nowMs, isSystem := true }

/-- Embedding of the RoomEvent.Disconnected handler (ChatRoom.js lines
545-556): clear the connected flag and the participants, and append a
system message to the (otherwise untouched) message list. -/
def onDisconnected (nowMs : Nat) (s : ChatState) : ChatState :=
  { s with isConnected := false, participants := [],
           messages := s.messages ++ [disconnectedSysMessage nowMs] }

/-- Embedding of the RoomEvent.DataReceived handler (ChatRoom.js lines
557-574).  `senderIdentity` is `participant?.identity`; `text` is the
TextDecoder output for the payload; `msgId` is `Date.now() + Math.random()`
and `nowMs` the timestamp. -/
def onDataReceived (senderIdentity : Option String) (text : String)
    (msgId nowMs : Nat) (s : ChatState) : ChatState :=
  { s with messages := s.messages ++
      [{ id := msgId, sender := senderIdentity.getD "Unknown", message := text,
         timestampMs := nowMs, isBot := senderIdentity == some "ai-agent" }] }

/-- The system message appended when the AI agent joins. -/
def aiJoinedSysMessage (nowMs : Nat) : Message :=
  { id := nowMs, sender := "System", message := "AI Assistant joined the chat",
    timestampMs := nowMs, isSystem := true }

/-- Embedding of the RoomEvent.ParticipantConnected handler (ChatRoom.js
lines 575-593): append the identity unless already present; when the
identity is the agent, also append a system message. -/
def onParticipantConnected (ident : String) (nowMs : Nat)
    (s : ChatState) : ChatState :=
  let s1 := { s with participants :=
    if s.participants.contains ident then s.participants
    else s.participants ++ [ident] }
  if ident = "ai-agent" then
    { s1 with messages := s1.messages ++ [aiJoinedSysMessage nowMs] }
  else s1

/-- Embedding of the RoomEvent.ParticipantDisconnected handler (ChatRoom.js
lines 594-597). -/
def onParticipantDisconnected (ident : String) (s : ChatState) : ChatState :=
  { s with participants := s.participants.filter (fun p => p != ident) }

/-- Embedding of sendMessage (ChatRoom.js lines 630-659).  `sendNowMs` is
`Date.now()` when the optimistic message is appended; `failNowMs` is the
fresh `Date.now()` evaluated inside the catch branch; `publishError` models
`publishData` (`some msg` when it throws). -/
def sendMessage (sendNowMs failNowMs : Nat) (publishError : Option String)
    (s : ChatState) : ChatState :=
  if (jsTrim s.inputMessage).isEmpty || s.room.isNone || !s.isConnected then s
  else
    let text := jsTrim s.inputMessage
    let userMsg : Message :=
      { id := sendNowMs, sender := s.username, message := text,
        timestampMs := sendNowMs, isUser := true }
    let s1 := { s with inputMessage := "", messages := s.messages ++ [userMsg] }
    match publishError with
    | none => s1
    | some msg =>
        { s1 with error := "Failed to send message: " ++ msg,
                  messages := s1.messages.filter (fun m => m.id != failNowMs) }

/-- Embedding of the explicit disconnect action (ChatRoom.js lines 668-677):
tear down the room reference and reset connected flag, participants,
messages and error. -/
def disconnect (s : ChatState) : ChatState :=
  let s1 := match s.room with
    | some _ => { s with room := none }
    | none => s
  { s1 with isConnected := false, participants := [], messages := [],
            error := "" }

/-- A concrete room object used in scenarios: one remote participant
("ai-agent") and local identity "bob". -/
def mockRoom : Room :=
  { participants := some ["ai-agent"], localParticipant := some "bob" }

/-- A concrete state in the Connected connection state. -/
def connectedState : ChatState :=
  { chatInit with
      isConnected := true, room := some mockRoom,
      participants := ["ai-agent", "bob"], username := "bob" }

/-- A concrete Connected state with a pending draft message. -/
def draftState : ChatState :=
  { connectedState with inputMessage := "hi" }

/-- A concrete Idle state whose username is whitespace-only. -/
def idleBlankNameState : ChatState :=
  { chatInit with username := "   " }

/-- End-to-end scenario, step 1: join as "bob" with a successful token fetch
and room connect. -/
def c4AfterJoin : ChatState :=
  connectToRoom (.ok "tok" "wss://x" "ai-chat-room") none mockRoom
    { chatInit with username := "bob" }

/-- End-to-end scenario, step 2: the room service fires Connected. -/
def c4AfterConnected : ChatState :=
  onConnected mockRoom 100 c4AfterJoin

/-- End-to-end scenario, step 3: the user types "hi" and sends it; the
publish succeeds. -/
def c4AfterSend : ChatState :=
  sendMessage 200 201 none { c4AfterConnected with inputMessage := "hi" }

/-- End-to-end scenario, step 4: a DataReceived from "ai-agent" whose
payload decodes to "hi back". -/
def c4Final : ChatState :=
  onDataReceived (some "ai-agent") "hi back" 300 300 c4AfterSend

/-- Claim C3: for every request with valid configuration (all three values
present) and username "alice" on which signing succeeds, the issued token's
claims satisfy sub = "alice", exp - nbf = 21600, video.room =
"ai-chat-room", and all four grant booleans are true. -/
theorem c3_token_claims (apiKey apiSecret wsUrl : Option String) (now : Nat)
    (hk : falsy apiKey = false) (hs : falsy apiSecret = false)
    (hw : falsy wsUrl = false) :
    ∃ tok : SignedToken,
      handler "POST" (some "alice") apiKey apiSecret wsUrl now none
        = .success tok (wsUrl.getD "") "ai-chat-room" ∧
      tok.payload.sub = "alice" ∧
      tok.payload.exp - tok.payload.nbf = 21600 ∧
      tok.payload.video.room = "ai-chat-room" ∧
      tok.payload.video.roomJoin = true ∧
      tok.payload.video.canPublish = true ∧
      tok.payload.video.canSubscribe = true ∧
      tok.payload.video.canPublishData = true := by
  refine ⟨⟨⟨apiKey.getD "", "alice", now, now + 6 * 60 * 60,
      ⟨"ai-chat-room", true, true, true, true⟩⟩, apiSecret.getD ""⟩,
    ?_, rfl, by show now + 6 * 60 * 60 - now = 21600; omega,
    rfl, rfl, rfl, rfl, rfl⟩
  have h1 : falsy (some "alice") = false := by decide
  simp [handler, h1, hk, hs, hw]

/-- Witness for C3 at a concrete request. -/
theorem c3_token_claims_witness :
    falsy (some "key") = false ∧ falsy (some "secret") = false ∧
    falsy (some "wss://x") = false ∧
    ∃ tok : SignedToken,
      handler "POST" (some "alice") (some "key") (some "secret")
          (some "wss://x") 1000 none
        = .success tok ((some "wss://x").getD "") "ai-chat-room" ∧
      tok.payload.sub = "alice" ∧
      tok.payload.exp - tok.payload.nbf = 21600 ∧
      tok.payload.video.room = "ai-chat-room" ∧
      tok.payload.video.roomJoin = true ∧
      tok.payload.video.canPublish = true ∧
      tok.payload.video.canSubscribe = true ∧
      tok.payload.video.canPublishData = true :=
  ⟨by decide, by decide, by decide,
   c3_token_claims (some "key") (some "secret") (some "wss://x") 1000
     (by decide) (by decide) (by decide)⟩

/-- Counterexample to C5 as stated: a POST request with an absent apiKey but
also a missing username returns status 400 (the username check fires first),
not 500. -/
theorem c5_counterexample :
    falsy (none : Option String) = true ∧
    (handler "POST" none none (some "secret") (some "wss://x") 0 none).status
      = 400 := by
  decide

/-- Claim C5 (amended): for every POST request with a present, non-empty
username in which at least one of the three configuration values is absent,
the handler returns status 500 with a details object whose keys are exactly
apiKey, apiSecret, wsUrl (by construction of ConfigDetails), each mapped to
"Missing" or "Present" matching whether that value is actually absent. -/
theorem c5_config_error (username apiKey apiSecret wsUrl : Option String)
    (now : Nat) (signError : Option String)
    (hu : falsy username = false)
    (hcfg : (falsy apiKey || falsy apiSecret || falsy wsUrl) = true) :
    handler "POST" username apiKey apiSecret wsUrl now signError
      = .configFailure 500 "Missing LiveKit configuration"
          { apiKey := if falsy apiKey then "Missing" else "Present",
            apiSecret := if falsy apiSecret then "Missing" else "Present",
            wsUrl := if falsy wsUrl then "Missing" else "Present" } := by
  simp [handler, presence, hu, hcfg]

/-- Witness for the amended C5 at a concrete request with apiKey absent. -/
theorem c5_config_error_witness :
    falsy (some "alice") = false ∧
    (falsy (none : Option String) || falsy (some "secret")
      || falsy (some "wss://x")) = true ∧
    handler "POST" (some "alice") none (some "secret") (some "wss://x") 0 none
      = .configFailure 500 "Missing LiveKit configuration"
          { apiKey := if falsy (none : Option String) then "Missing"
              else "Present",
            apiSecret := if falsy (some "secret") then "Missing"
              else "Present",
            wsUrl := if falsy (some "wss://x") then "Missing"
              else "Present" } :=
  ⟨by decide, by decide,
   c5_config_error (some "alice") none (some "secret") (some "wss://x") 0 none
     (by decide) (by decide)⟩

/-- Claim C6: every POST request with a missing or empty username gets a 400
response with error "Username is required", independent of configuration,
clock and signing outcome, so the signing step is never reached and no token
is generated. -/
theorem c6_username_required (username apiKey apiSecret wsUrl : Option String)
    (now : Nat) (signError : Option String)
    (hu : falsy username = true) :
    handler "POST" username apiKey apiSecret wsUrl now signError
      = .failure 400 "Username is required" := by
  simp [handler, hu]

/-- Witness for C6 at a concrete request with an empty username. -/
theorem c6_username_required_witness :
    falsy (some "") = true ∧
    handler "POST" (some "") (some "key") (some "secret") (some "wss://x")
        5 none
      = .failure 400 "Username is required" :=
  ⟨by decide,
   c6_username_required (some "") (some "key") (some "secret") (some "wss://x")
     5 none (by decide)⟩

/-- Claim C10: the username check rejects only falsy values, so every
whitespace-only username (nonempty, all characters whitespace) passes
validation and (with valid configuration and successful signing) a token is
issued whose sub claim equals that whitespace string — even though the
client-side controller trims the username before sending it, so it would
send "" for any such input. -/
theorem c10_whitespace_username (u : String)
    (apiKey apiSecret wsUrl : Option String) (now : Nat)
    (hne : u ≠ "") (hws : ∀ c ∈ u.data, c.isWhitespace = true)
    (hk : falsy apiKey = false) (hs : falsy apiSecret = false)
    (hw : falsy wsUrl = false) :
    falsy (some u) = false ∧
    (∃ tok : SignedToken,
      handler "POST" (some u) apiKey apiSecret wsUrl now none
        = .success tok (wsUrl.getD "") "ai-chat-room" ∧
      tok.payload.sub = u) ∧
    tokenRequestUsername { chatInit with username := u } = "" := by
  have hfe : u.isEmpty = false := by
    cases hu : u.isEmpty
    · rfl
    · exact absurd ((String.isEmpty_iff u).mp hu) hne
  have hfu : falsy (some u) = false := hfe
  have hdrop : u.data.dropWhile Char.isWhitespace = [] := by
    rw [List.dropWhile_eq_nil_iff]
    exact hws
  refine ⟨hfu,
    ⟨⟨⟨apiKey.getD "", u, now, now + 6 * 60 * 60,
        ⟨"ai-chat-room", true, true, true, true⟩⟩, apiSecret.getD ""⟩,
      ?_, rfl⟩, ?_⟩
  · simp [handler, hfu, hk, hs, hw]
  · simp [tokenRequestUsername, jsTrim, hdrop]

/-- Witness for C10 at the whitespace-only username " " and a concrete
configuration. -/
theorem c10_whitespace_username_witness :
    (" " : String) ≠ "" ∧
    (∀ c ∈ (" " : String).data, c.isWhitespace = true) ∧
    falsy (some "key") = false ∧ falsy (some "secret") = false ∧
    falsy (some "wss://x") = false ∧
    (falsy (some " ") = false ∧
    (∃ tok : SignedToken,
      handler "POST" (some " ") (some "key") (some "secret") (some "wss://x")
          7 none
        = .success tok ((some "wss://x").getD "") "ai-chat-room" ∧
      tok.payload.sub = " ") ∧
    tokenRequestUsername { chatInit with username := " " } = "") :=
  ⟨by decide, by decide, by decide, by decide, by decide,
   c10_whitespace_username " " (some "key") (some "secret") (some "wss://x") 7
     (by decide) (by decide) (by decide) (by decide) (by decide)⟩

/-- Counterexample to C1 as stated: a room-service Disconnected event does
not clear the message list — from a Connected state it leaves the list
nonempty (it appends a system message). -/
theorem c1_counterexample :
    connectionState connectedState = .Connected ∧
    (onDisconnected 7 connectedState).messages ≠ [] := by
  decide

/-- Claim C1 (amended): from the Connected state, the explicit disconnect
action returns connectionState to Idle and clears participants and messages
to empty; a room-service Disconnected event returns connectionState to Idle
and clears participants to empty, but appends a system message noting the
disconnection to the message list without clearing it. -/
theorem c1_disconnect_behavior (s : ChatState) (nowMs : Nat)
    (hc : s.isConnected = true) (hn : s.isConnecting = false) :
    connectionState (disconnect s) = .Idle ∧
    (disconnect s).participants = [] ∧
    (disconnect s).messages = [] ∧
    connectionState (onDisconnected nowMs s) = .Idle ∧
    (onDisconnected nowMs s).participants = [] ∧
    (onDisconnected nowMs s).messages
      = s.messages ++ [disconnectedSysMessage nowMs] := by
  cases hr : s.room <;>
    simp [disconnect, onDisconnected, connectionState, hr, hn]

/-- Witness for the amended C1 at a concrete Connected state. -/
theorem c1_disconnect_behavior_witness :
    connectedState.isConnected = true ∧ connectedState.isConnecting = false ∧
    (connectionState (disconnect connectedState) = .Idle ∧
    (disconnect connectedState).participants = [] ∧
    (disconnect connectedState).messages = [] ∧
    connectionState (onDisconnected 7 connectedState) = .Idle ∧
    (onDisconnected 7 connectedState).participants = [] ∧
    (onDisconnected 7 connectedState).messages
      = connectedState.messages ++ [disconnectedSysMessage 7]) :=
  ⟨by decide, by decide,
   c1_disconnect_behavior connectedState 7 (by decide) (by decide)⟩

/-- Claim C2: when the data-channel publish throws during sendMessage, the
failure is recorded in the error string, and the failure-path removal
filters by the Date.now() value read at failure time rather than the
optimistic message's original identifier, so whenever the two timestamps
differ the already-appended optimistic user message stays in the list. -/
theorem c2_send_failure_keeps_optimistic (s : ChatState) (t1 t2 : Nat)
    (err : String) (hin : (jsTrim s.inputMessage).isEmpty = false)
    (hroom : s.room.isNone = false) (hconn : s.isConnected = true)
    (hne : t1 ≠ t2) :
    (sendMessage t1 t2 (some err) s).error
        = "Failed to send message: " ++ err ∧
    ({ id := t1, sender := s.username, message := jsTrim s.inputMessage,
       timestampMs := t1, isUser := true } : Message)
      ∈ (sendMessage t1 t2 (some err) s).messages := by
  constructor
  · simp [sendMessage, hin, hroom, hconn]
  · simp [sendMessage, hin, hroom, hconn, List.mem_filter, hne]

/-- Witness for C2 at a concrete Connected state with draft "hi". -/
theorem c2_send_failure_keeps_optimistic_witness :
    (jsTrim draftState.inputMessage).isEmpty = false ∧
    draftState.room.isNone = false ∧
    draftState.isConnected = true ∧
    (10 : Nat) ≠ 11 ∧
    ((sendMessage 10 11 (some "boom") draftState).error
        = "Failed to send message: " ++ "boom" ∧
    ({ id := 10, sender := draftState.username,
       message := jsTrim draftState.inputMessage,
       timestampMs := 10, isUser := true } : Message)
      ∈ (sendMessage 10 11 (some "boom") draftState).messages) :=
  ⟨by decide, by decide, by decide, by decide,
   c2_send_failure_keeps_optimistic draftState 10 11 "boom"
     (by decide) (by decide) (by decide) (by decide)⟩

/-- Claim C4: in the scenario join as "bob", Connected fires, the user sends
"hi", and a DataReceived from "ai-agent" decoding to "hi back" arrives, the
resulting message list is exactly system:"Connected to chat room!",
user:"hi", agent:"hi back", in that order. -/
theorem c4_scenario :
    c4Final.messages.map (fun m => (roleOf m, m.message))
      = [(Role.system, "Connected to chat room!"), (Role.user, "hi"),
         (Role.agent, "hi back")] := by
  decide

/-- Claim C7: a join action with an empty or whitespace-only username leaves
connectionState where it was (in particular it never leaves Idle), sets the
error field, and leaves messages, participants and the room reference
unchanged, whatever the fetch and connect outcomes would have been. -/
theorem c7_blank_username_join (s : ChatState) (fetchRes : TokenFetchResult)
    (connectError : Option String) (newRoom : Room)
    (h : (jsTrim s.username).isEmpty = true) :
    (connectToRoom fetchRes connectError newRoom s).error
        = "Please enter a username" ∧
    connectionState (connectToRoom fetchRes connectError newRoom s)
        = connectionState s ∧
    (connectToRoom fetchRes connectError newRoom s).messages = s.messages ∧
    (connectToRoom fetchRes connectError newRoom s).participants
        = s.participants ∧
    (connectToRoom fetchRes connectError newRoom s).room = s.room := by
  simp [connectToRoom, h, connectionState]

/-- Witness for C7 at a concrete Idle state with a whitespace-only
username. -/
theorem c7_blank_username_join_witness :
    (jsTrim idleBlankNameState.username).isEmpty = true ∧
    ((connectToRoom (.httpError 500 "x") none mockRoom
        idleBlankNameState).error = "Please enter a username" ∧
    connectionState (connectToRoom (.httpError 500 "x") none mockRoom
        idleBlankNameState) = connectionState idleBlankNameState ∧
    (connectToRoom (.httpError 500 "x") none mockRoom
        idleBlankNameState).messages = idleBlankNameState.messages ∧
    (connectToRoom (.httpError 500 "x") none mockRoom
        idleBlankNameState).participants = idleBlankNameState.participants ∧
    (connectToRoom (.httpError 500 "x") none mockRoom
        idleBlankNameState).room = idleBlankNameState.room) :=
  ⟨by decide,
   c7_blank_username_join idleBlankNameState (.httpError 500 "x") none
     mockRoom (by decide)⟩

/-- Claim C8: a ParticipantConnected event for an identity already present
in the participant set leaves the participant set unchanged. -/
theorem c8_participant_add_idempotent (ident : String) (nowMs : Nat)
    (s : ChatState) (h : ident ∈ s.participants) :
    (onParticipantConnected ident nowMs s).participants = s.participants := by
  have hc : s.participants.contains ident = true := List.elem_iff.mpr h
  by_cases hai : ident = "ai-agent" <;>
    simp [onParticipantConnected, hc, hai] <;> simp_all

/-- Witness for C8 at a concrete state already containing "bob". -/
theorem c8_participant_add_idempotent_witness :
    "bob" ∈ connectedState.participants ∧
    (onParticipantConnected "bob" 9 connectedState).participants
      = connectedState.participants :=
  ⟨by decide,
   c8_participant_add_idempotent "bob" 9 connectedState (by decide)⟩

/-- Claim C9: the Connected handler seeds the participant list as the remote
identities with the local identity appended unconditionally, so whenever the
local identity already occurs among the remote participants the seeded list
contains it at least twice. -/
theorem c9_seed_duplicate_local (r : Room) (s : ChatState) (nowMs : Nat)
    (remotes : List String) (me : String)
    (hp : r.participants = some remotes) (hl : r.localParticipant = some me)
    (hmem : me ∈ remotes) :
    (onConnected r nowMs s).participants = remotes ++ [me] ∧
    2 ≤ (onConnected r nowMs s).participants.count me := by
  have h1 : (onConnected r nowMs s).participants = remotes ++ [me] := by
    simp [onConnected, updateParticipantsList, hp, hl]
  refine ⟨h1, ?_⟩
  rw [h1, List.count_append]
  have h2 : 0 < remotes.count me := List.count_pos_iff.mpr hmem
  have h3 : List.count me [me] = 1 := by simp
  omega

/-- Witness for C9: a room whose remote list already contains the local
identity "bob". -/
theorem c9_seed_duplicate_local_witness :
    (Room.mk (some ["bob"]) (some "bob")).participants = some ["bob"] ∧
    (Room.mk (some ["bob"]) (some "bob")).localParticipant = some "bob" ∧
    "bob" ∈ ["bob"] ∧
    ((onConnected (Room.mk (some ["bob"]) (some "bob")) 3
        chatInit).participants = ["bob"] ++ ["bob"] ∧
    2 ≤ ((onConnected (Room.mk (some ["bob"]) (some "bob")) 3
        chatInit).participants.count "bob")) :=
  ⟨by decide, by decide, by decide,
   c9_seed_duplicate_local (Room.mk (some ["bob"]) (some "bob")) chatInit 3
     ["bob"] "bob" (by decide) (by decide) (by decide)⟩
